import Mathlib

/-!
Verification development for the Meskernel laser-distance application.

The definitions below are shallow embeddings of the Python sources:
  * `src/modules/sensor/constants.py` — protocol byte constants,
  * `src/modules/core/commands.py` — `LaserCommand.to_bytes` /
    `LaserCommand.get_expected_response_length`,
  * `src/modules/core/response_parser.py` — `MeskernelResponseParser`,
  * `src/modules/core/device_controller.py` — the Bluetooth frame
    synchronizer loop of `_on_bluetooth_data_received`,
  * `src/modules/processing/velocity_calculator.py` — `VelocityCalculator`,
  * `src/modules/processing/state_detector.py` — `StateDetector`.

Bytes are modelled as `Nat` (always < 256 in practice), Python floats as `ℚ`
(all quantities appearing in the verified claims are decimal fractions, so
rational arithmetic coincides with the intended real-number semantics),
and Python dict results of the parser as the tagged union `Parsed`.
-/

namespace Meskernel

/-! ## constants.py -/

def HEADER : Nat := 0xAA

def CMD_READ_STATUS : List Nat := [0xAA, 0x80, 0x00, 0x00, 0x80]
def CMD_READ_HARDWARE_VERSION : List Nat := [0xAA, 0x80, 0x00, 0x0A, 0x8A]
def CMD_READ_SOFTWARE_VERSION : List Nat := [0xAA, 0x80, 0x00, 0x0C, 0x8C]
def CMD_READ_SERIAL_NUMBER : List Nat := [0xAA, 0x80, 0x00, 0x0E, 0x8E]
def CMD_READ_INPUT_VOLTAGE : List Nat := [0xAA, 0x80, 0x00, 0x06, 0x86]
def CMD_READ_LAST_MEASUREMENT : List Nat := [0xAA, 0x80, 0x00, 0x22, 0xA2]

def CMD_SINGLE_AUTO_MEASURE : List Nat :=
  [0xAA, 0x00, 0x00, 0x20, 0x00, 0x01, 0x00, 0x00, 0x21]
def CMD_SINGLE_LOW_SPEED_MEASURE : List Nat :=
  [0xAA, 0x00, 0x00, 0x20, 0x00, 0x01, 0x00, 0x01, 0x22]
def CMD_SINGLE_HIGH_SPEED_MEASURE : List Nat :=
  [0xAA, 0x00, 0x00, 0x20, 0x00, 0x01, 0x00, 0x02, 0x23]
def CMD_CONTINUOUS_AUTO_MEASURE : List Nat :=
  [0xAA, 0x00, 0x00, 0x20, 0x00, 0x01, 0x00, 0x04, 0x25]
def CMD_CONTINUOUS_LOW_SPEED_MEASURE : List Nat :=
  [0xAA, 0x00, 0x00, 0x20, 0x00, 0x01, 0x00, 0x05, 0x26]
def CMD_CONTINUOUS_HIGH_SPEED_MEASURE : List Nat :=
  [0xAA, 0x00, 0x00, 0x20, 0x00, 0x01, 0x00, 0x06, 0x27]

/-- `CMD_EXIT_CONTINUOUS_MODE = b'X'`: the single ASCII byte 0x58. -/
def CMD_EXIT_CONTINUOUS_MODE : List Nat := [0x58]

def CMD_TURN_LASER_ON : List Nat :=
  [0xAA, 0x00, 0x01, 0xBE, 0x00, 0x01, 0x00, 0x01, 0xC1]
def CMD_TURN_LASER_OFF : List Nat :=
  [0xAA, 0x00, 0x01, 0xBE, 0x00, 0x01, 0x00, 0x00, 0xC0]

def LEN_STATUS_RESPONSE : Nat := 9
def LEN_VERSION_RESPONSE : Nat := 9
def LEN_SERIAL_RESPONSE : Nat := 11
def LEN_VOLTAGE_RESPONSE : Nat := 9
def LEN_MEASUREMENT_RESPONSE : Nat := 13
def LEN_LASER_CONTROL_RESPONSE : Nat := 9

/-! ## commands.py -/

/-- The closed command enumeration `CommandType`. -/
inductive CommandType where
  | LASER_ON
  | LASER_OFF
  | SINGLE_AUTO_MEASURE
  | SINGLE_LOW_SPEED_MEASURE
  | SINGLE_HIGH_SPEED_MEASURE
  | CONTINUOUS_AUTO_MEASURE
  | CONTINUOUS_LOW_SPEED_MEASURE
  | CONTINUOUS_HIGH_SPEED_MEASURE
  | EXIT_CONTINUOUS_MODE
  | READ_STATUS
  | READ_HARDWARE_VERSION
  | READ_SOFTWARE_VERSION
  | READ_SERIAL_NUMBER
  | READ_INPUT_VOLTAGE
  | READ_LAST_MEASUREMENT
deriving DecidableEq, Repr

/-- `LaserCommand.to_bytes`: the `cmd_map` dictionary covers every
enumeration member, so the Python default `b''` is unreachable. -/
def to_bytes : CommandType → List Nat
  | .LASER_ON => CMD_TURN_LASER_ON
  | .LASER_OFF => CMD_TURN_LASER_OFF
  | .SINGLE_AUTO_MEASURE => CMD_SINGLE_AUTO_MEASURE
  | .SINGLE_LOW_SPEED_MEASURE => CMD_SINGLE_LOW_SPEED_MEASURE
  | .SINGLE_HIGH_SPEED_MEASURE => CMD_SINGLE_HIGH_SPEED_MEASURE
  | .CONTINUOUS_AUTO_MEASURE => CMD_CONTINUOUS_AUTO_MEASURE
  | .CONTINUOUS_LOW_SPEED_MEASURE => CMD_CONTINUOUS_LOW_SPEED_MEASURE
  | .CONTINUOUS_HIGH_SPEED_MEASURE => CMD_CONTINUOUS_HIGH_SPEED_MEASURE
  | .EXIT_CONTINUOUS_MODE => CMD_EXIT_CONTINUOUS_MODE
  | .READ_STATUS => CMD_READ_STATUS
  | .READ_HARDWARE_VERSION => CMD_READ_HARDWARE_VERSION
  | .READ_SOFTWARE_VERSION => CMD_READ_SOFTWARE_VERSION
  | .READ_SERIAL_NUMBER => CMD_READ_SERIAL_NUMBER
  | .READ_INPUT_VOLTAGE => CMD_READ_INPUT_VOLTAGE
  | .READ_LAST_MEASUREMENT => CMD_READ_LAST_MEASUREMENT

/-- `LaserCommand.get_expected_response_length`: the `length_map` dictionary
lists only the read commands and the two laser-control commands; every other
member (all six measure commands and `EXIT_CONTINUOUS_MODE`) falls through to
the `.get(..., 0)` default of `0`. -/
def get_expected_response_length : CommandType → Nat
  | .READ_STATUS => LEN_STATUS_RESPONSE
  | .READ_HARDWARE_VERSION => LEN_VERSION_RESPONSE
  | .READ_SOFTWARE_VERSION => LEN_VERSION_RESPONSE
  | .READ_SERIAL_NUMBER => LEN_SERIAL_RESPONSE
  | .READ_INPUT_VOLTAGE => LEN_VOLTAGE_RESPONSE
  | .READ_LAST_MEASUREMENT => LEN_MEASUREMENT_RESPONSE
  | .LASER_ON => LEN_LASER_CONTROL_RESPONSE
  | .LASER_OFF => LEN_LASER_CONTROL_RESPONSE
  | _ => 0

/-! ## response_parser.py -/

/-- Upper-case hexadecimal digit, as produced by Python `"%X"` formatting. -/
def hexDigit (n : Nat) : Char :=
  if n < 10 then Char.ofNat (48 + n) else Char.ofNat (55 + n)

/-- Python `f"{b:02X}"` for a byte value `b < 256`. -/
def byteHex (b : Nat) : String :=
  String.mk [hexDigit (b / 16 % 16), hexDigit (b % 16)]

/-- Python `int.from_bytes(data, 'big')`. -/
def beVal (data : List Nat) : Nat :=
  data.foldl (fun acc b => acc * 256 + b) 0

/-- Python 3 `round` on an exact rational value: round half to even. -/
def pythonRound (q : ℚ) : ℤ :=
  let f : ℤ := ⌊q⌋
  let r : ℚ := q - (f : ℚ)
  if r < 1 / 2 then f
  else if 1 / 2 < r then f + 1
  else if Even f then f else f + 1

/-- The tagged union of parser results.  Each constructor carries the decoded
fields of the corresponding result dictionary of `MeskernelResponseParser`
(presentation-only keys such as `raw_hex` and `full_info` are omitted). -/
inductive Parsed where
  | status (status_code : Nat) (status_text : String)
  | version (is_hardware : Bool) (major minor : Nat)
  | serial (serial_number serial_hex : String)
  | voltage (voltage_raw : Nat) (voltage : ℚ)
  | measurement (distance_mm : Nat) (signal_quality : ℤ)
  | laser (laser_status : Nat) (laser_on : Bool)
  | unknown (raw : List Nat)
  | error (msg : String)
deriving DecidableEq, Repr

/-- `MeskernelResponseParser._get_status_text`. -/
def statusText (c : Nat) : String :=
  if c = 0x00 then "OK - Normal operation"
  else if c = 0x01 then "Error - Measurement failed"
  else if c = 0x02 then "Error - Laser malfunction"
  else if c = 0x03 then "Error - Temperature too high"
  else if c = 0x04 then "Error - Voltage too low"
  else if c = 0x05 then "Warning - Signal quality low"
  else if c = 0xFF then "Error - Unknown error"
  else "Unknown status: 0x" ++ byteHex c

/-- `MeskernelResponseParser.parse_status_response`. -/
def parse_status_response (data : List Nat) : Parsed :=
  if data.length ≠ LEN_STATUS_RESPONSE then .error "Invalid status response length"
  else .status (data.getD 1 0) (statusText (data.getD 1 0))

/-- `MeskernelResponseParser.parse_version_response`; the Python default for
`is_hardware` is `True`. -/
def parse_version_response (data : List Nat) (is_hardware : Bool := true) : Parsed :=
  if data.length ≠ LEN_VERSION_RESPONSE then .error "Invalid version response length"
  else .version is_hardware (data.getD 1 0) (data.getD 2 0)

/-- `MeskernelResponseParser.parse_serial_response`.  `payload = data[6:-1]`;
Python `str.strip` and Lean `String.trim` agree on strings of printable ASCII
characters (the only whitespace in the range 32–126 is the space). -/
def parse_serial_response (data : List Nat) : Parsed :=
  if data.length ≠ LEN_SERIAL_RESPONSE then .error "Invalid serial response length"
  else
    let payload := if 7 < data.length then (data.drop 6).dropLast else []
    let isAsciiPrintable :=
      (payload.all fun b => decide (32 ≤ b) && decide (b ≤ 126)) && decide (0 < payload.length)
    let serial_ascii :=
      if isAsciiPrintable then (String.mk (payload.map Char.ofNat)).trim else ""
    let serial_hex := String.join (payload.map byteHex)
    let serial_value := if serial_ascii ≠ "" then serial_ascii else serial_hex
    .serial serial_value serial_hex

/-- `MeskernelResponseParser.parse_voltage_response`: packed BCD at bytes
`[6]`,`[7]` when every nibble is ≤ 9, big-endian integer millivolts
otherwise; `voltage = voltage_mv / 1000`. -/
def parse_voltage_response (data : List Nat) : Parsed :=
  if data.length ≠ LEN_VOLTAGE_RESPONSE then .error "Invalid voltage response length"
  else if 8 ≤ data.length then
    let b1 := data.getD 6 0
    let b2 := data.getD 7 0
    let n0 := (b1 >>> 4) &&& 0x0F
    let n1 := b1 &&& 0x0F
    let n2 := (b2 >>> 4) &&& 0x0F
    let n3 := b2 &&& 0x0F
    let voltage_mv :=
      if n0 ≤ 9 ∧ n1 ≤ 9 ∧ n2 ≤ 9 ∧ n3 ≤ 9 then
        n0 * 1000 + n1 * 100 + n2 * 10 + n3
      else (b1 <<< 8) ||| b2
    .voltage voltage_mv ((voltage_mv : ℚ) / 1000)
  else .error "Voltage response too short"

/-- Signal-quality normalisation of `parse_measurement_response`: values above
100 are mapped through `round(raw / 65535 * 100)` clamped to `[0, 100]`. -/
def normalizeQuality (raw_quality : Nat) : ℤ :=
  if raw_quality > 100 then
    max 0 (min 100 (pythonRound ((raw_quality : ℚ) / 65535 * 100)))
  else raw_quality

/-- `MeskernelResponseParser.parse_measurement_response`: big-endian u32
distance at `[6:10]`, big-endian u16 quality at `[10:12]`. -/
def parse_measurement_response (data : List Nat) : Parsed :=
  if data.length ≠ LEN_MEASUREMENT_RESPONSE then .error "Invalid measurement response length"
  else
    let distance_mm := beVal ((data.drop 6).take 4)
    let raw_quality := beVal ((data.drop 10).take 2)
    .measurement distance_mm (normalizeQuality raw_quality)

/-- `MeskernelResponseParser.parse_laser_control_response`. -/
def parse_laser_control_response (data : List Nat) : Parsed :=
  if data.length ≠ LEN_LASER_CONTROL_RESPONSE then .error "Invalid laser control response length"
  else .laser (data.getD 1 0) (data.getD 1 0 = 1)

/-- The `expected_type` strings handled by `parse_any_response`. -/
inductive ExpectedType where
  | status
  | version
  | hardware_version
  | software_version
  | serial
  | voltage
  | measurement
  | laser_control
  | unknown
deriving DecidableEq, Repr

/-- The length/prefix auto-detection of `parse_any_response`, run when
`expected_type == "unknown"`.  Note the dispatch is length-first: every
9-byte frame resolves to `status` (the `version`, `voltage` and
`laser_control` length tests compare against the same value 9 and are
unreachable), and 13- or 11-byte frames are split by 4-byte prefix with
`measurement` as the default. -/
def detectType (data : List Nat) : ExpectedType :=
  if data.length = LEN_STATUS_RESPONSE then .status
  else if data.length = LEN_VERSION_RESPONSE then .version
  else if data.length = LEN_VOLTAGE_RESPONSE then .voltage
  else if data.length = LEN_MEASUREMENT_RESPONSE ∨ data.length = LEN_SERIAL_RESPONSE then
    if data.take 4 = [0xAA, 0x00, 0x00, 0x22] then .measurement
    else if data.take 4 = [0xAA, 0x80, 0x00, 0x0E] then .serial
    else .measurement
  else if data.length = LEN_LASER_CONTROL_RESPONSE then .laser_control
  else .unknown

/-- `MeskernelResponseParser.parse_any_response`. -/
def parse_any_response (data : List Nat) (expected : ExpectedType) : Parsed :=
  if data = [] then .error "Empty response"
  else
    let et := if expected = .unknown then detectType data else expected
    match et with
    | .status => parse_status_response data
    | .version => parse_version_response data
    | .hardware_version => parse_version_response data true
    | .software_version => parse_version_response data false
    | .serial => parse_serial_response data
    | .voltage => parse_voltage_response data
    | .measurement => parse_measurement_response data
    | .laser_control => parse_laser_control_response data
    | .unknown => .unknown data

/-! ## device_controller.py — the Bluetooth frame synchronizer

`LaserDeviceController._on_bluetooth_data_received` appends the delivery to
`self.bluetooth_buffer` and then loops: find the first `0xAA`; if none, clear
the buffer; if fewer than 13 bytes remain from the header, keep the bytes
from the header onward and wait; otherwise take the 13-byte candidate — if it
starts with `AA 00 00 22` parse it (emitting the measurement unless the
parser returned an error, which cannot happen at length 13) and drop the
frame from the buffer, else drop a single byte past the header and continue.

The loop is embedded with explicit fuel; every iteration removes at least
one byte from the buffer, so `buf.length + 1` steps always suffice and the
out-of-fuel branch is unreachable. -/

def MEAS_HEADER : List Nat := [0xAA, 0x00, 0x00, 0x22]

def FRAME_LEN : Nat := 13

/-- Whether a parse result is the Python `'error' in parsed` case. -/
def Parsed.isError : Parsed → Bool
  | .error _ => true
  | _ => false

/-- One pass of the `while True` loop of `_on_bluetooth_data_received`,
returning the emitted measurements in order and the remaining buffer.
Recursing into the tail on a non-header byte is the same as jumping to
`buffer.find(0xAA)`: the skipped bytes would be deleted by the next
`del self.bluetooth_buffer[:start_idx]` anyway, and a buffer with no header
is cleared. -/
def syncLoopF : Nat → List Nat → List Parsed × List Nat
  | 0, buf => ([], buf)
  | _ + 1, [] => ([], [])
  | fuel + 1, b :: rest =>
    if b = HEADER then
      if rest.length + 1 < FRAME_LEN then ([], b :: rest)
      else
        let candidate := (b :: rest).take FRAME_LEN
        if candidate.take 4 = MEAS_HEADER then
          let p := parse_measurement_response candidate
          let out := syncLoopF fuel (rest.drop (FRAME_LEN - 1))
          (if p.isError then out.1 else p :: out.1, out.2)
        else syncLoopF fuel rest
    else syncLoopF fuel rest

/-- The synchronizer pass over a buffer. -/
def syncLoop (buf : List Nat) : List Parsed × List Nat :=
  syncLoopF (buf.length + 1) buf

/-- One Bluetooth delivery: extend the buffer with the new data, then run the
frame-extraction loop. -/
def feedData (buf data : List Nat) : List Parsed × List Nat :=
  syncLoop (buf ++ data)

/-- Feeding a sequence of deliveries, accumulating emitted measurements. -/
def feedChunks (start : List Nat × List Parsed) (chunks : List (List Nat)) :
    List Nat × List Parsed :=
  chunks.foldl
    (fun acc chunk =>
      let r := feedData acc.1 chunk
      (r.2, acc.2 ++ r.1))
    start

/-! ## velocity_calculator.py -/

/-- The fields of `MeasurementData` used by the velocity calculator. -/
structure MeasurementData where
  timestamp : ℚ
  distance_mm : ℚ
deriving DecidableEq, Repr

/-- `collections.deque(maxlen := cap)` append. -/
def pushMax (cap : Nat) (l : List MeasurementData) (x : MeasurementData) :
    List MeasurementData :=
  let l2 := l ++ [x]
  l2.drop (l2.length - cap)

/-- `VelocityCalculator` state: the sliding window (`deque(maxlen=window_size)`,
default 5) and the recorded velocities (`deque(maxlen=1000)`). -/
structure VelocityCalculator where
  window_size : Nat := 5
  recent_measurements : List MeasurementData := []
  velocities : List ℚ := []
deriving DecidableEq, Repr

/-- `VelocityCalculator._calculate_instantaneous_velocity`: Δdistance (mm
converted to m) over Δtime between the two most recent samples; `None` when
fewer than two samples are held or `Δt ≤ 0`. -/
def calcInstantaneousVelocity (vc : VelocityCalculator) : Option ℚ :=
  match vc.recent_measurements.reverse with
  | p2 :: p1 :: _ =>
    let dt := p2.timestamp - p1.timestamp
    let dd := (p2.distance_mm - p1.distance_mm) / 1000
    if dt ≤ 0 then none else some (dd / dt)
  | _ => none

/-- `VelocityCalculator.add_measurement`: append to the window; with fewer
than two samples return `None`, otherwise compute the instantaneous velocity
(recording it when it is not `None`). -/
def add_measurement (vc : VelocityCalculator) (m : MeasurementData) :
    VelocityCalculator × Option ℚ :=
  let recent := pushMax vc.window_size vc.recent_measurements m
  let vc2 := { vc with recent_measurements := recent }
  if recent.length < 2 then (vc2, none)
  else
    match calcInstantaneousVelocity vc2 with
    | some v =>
      ({ vc2 with velocities := (vc2.velocities ++ [v]).drop (vc2.velocities.length + 1 - 1000) },
        some v)
    | none => (vc2, none)

/-! ## state_detector.py -/

/-- `DrillState`: `Khoan` = Drilling, `Dung` = `"Dừng"` = Stopped,
`RutCan` = `"Rút cần"` = Retracting. -/
inductive DrillState where
  | Khoan
  | Dung
  | RutCan
deriving DecidableEq, Repr

/-- `StateDetectorConfig` with its source defaults. -/
structure StateDetectorConfig where
  velocity_threshold : ℚ := 0.005
  min_duration_below_s : ℚ := 3.0
  min_duration_above_s : ℚ := 1.0
deriving DecidableEq, Repr

/-- The mutable fields of `StateDetector`. -/
structure StateDetector where
  config : StateDetectorConfig := {}
  current_state : DrillState := .Dung
  last_state_change_ts : Option ℚ := none
  last_below_start_ts : Option ℚ := none
  last_above_pos_start_ts : Option ℚ := none
  last_above_neg_start_ts : Option ℚ := none
  total_time_drilling_s : ℚ := 0
  total_time_stopped_s : ℚ := 0
  last_update_ts : Option ℚ := none
deriving DecidableEq, Repr

/-- The freshly constructed `StateDetector()` (all defaults). -/
def initDetector : StateDetector := {}

/-- First section of `StateDetector.update`: accumulate `max(0, dt)` into the
current (pre-transition) state's accumulator and record the call timestamp. -/
def accumStep (s : StateDetector) (timestamp_s : ℚ) : StateDetector :=
  let s' :=
    match s.last_update_ts with
    | none => s
    | some tp =>
      let dt := max 0 (timestamp_s - tp)
      if s.current_state = DrillState.Khoan then
        { s with total_time_drilling_s := s.total_time_drilling_s + dt }
      else
        { s with total_time_stopped_s := s.total_time_stopped_s + dt }
  { s' with last_update_ts := some timestamp_s }

/-- Second section of `StateDetector.update`: track the below / above-positive
/ above-negative streak start timestamps. -/
def streakStep (s : StateDetector) (velocity_ms timestamp_s : ℚ) : StateDetector :=
  let thr := s.config.velocity_threshold
  if |velocity_ms| < thr then
    { s with
      last_below_start_ts := some (s.last_below_start_ts.getD timestamp_s)
      last_above_pos_start_ts := none
      last_above_neg_start_ts := none }
  else
    let s2 :=
      if velocity_ms ≥ thr then
        { s with
          last_above_pos_start_ts := some (s.last_above_pos_start_ts.getD timestamp_s)
          last_above_neg_start_ts := none }
      else if velocity_ms ≤ -thr then
        { s with
          last_above_neg_start_ts := some (s.last_above_neg_start_ts.getD timestamp_s)
          last_above_pos_start_ts := none }
      else s
    { s2 with last_below_start_ts := none }

/-- `StateDetector._change_state`. -/
def changeState (s : StateDetector) (new_state : DrillState) (timestamp_s : ℚ) :
    StateDetector :=
  { s with
    current_state := new_state
    last_state_change_ts := some timestamp_s
    last_below_start_ts := none
    last_above_pos_start_ts := none
    last_above_neg_start_ts := none }

/-- Third section of `StateDetector.update`: the hysteresis transitions.  The
Python `elif` chains are mirrored exactly: a streak tracker that is present
but too short shadows the tracker behind it in the chain. -/
def transitionStep (s : StateDetector) (timestamp_s : ℚ) : StateDetector :=
  match s.current_state with
  | .Khoan =>
    match s.last_below_start_ts with
    | some b =>
      if timestamp_s - b ≥ s.config.min_duration_below_s then changeState s .Dung timestamp_s
      else s
    | none =>
      match s.last_above_neg_start_ts with
      | some a =>
        if timestamp_s - a ≥ s.config.min_duration_above_s then changeState s .RutCan timestamp_s
        else s
      | none => s
  | .RutCan =>
    match s.last_below_start_ts with
    | some b =>
      if timestamp_s - b ≥ s.config.min_duration_below_s then changeState s .Dung timestamp_s
      else s
    | none =>
      match s.last_above_pos_start_ts with
      | some a =>
        if timestamp_s - a ≥ s.config.min_duration_above_s then changeState s .Khoan timestamp_s
        else s
      | none => s
  | .Dung =>
    match s.last_above_pos_start_ts with
    | some a =>
      if timestamp_s - a ≥ s.config.min_duration_above_s then changeState s .Khoan timestamp_s
      else s
    | none =>
      match s.last_above_neg_start_ts with
      | some a =>
        if timestamp_s - a ≥ s.config.min_duration_above_s then changeState s .RutCan timestamp_s
        else s
      | none => s

/-- `StateDetector.update` (the returned value is the post-call
`current_state`). -/
def update (s : StateDetector) (velocity_ms timestamp_s : ℚ) : StateDetector :=
  transitionStep (streakStep (accumStep s timestamp_s) velocity_ms timestamp_s) timestamp_s


/-- The elapsed-time term of `StateDetector.update`: `max(0, dt)` since the
previous call, or nothing on the first call. -/
def dtElapsed (s : StateDetector) (timestamp_s : ℚ) : ℚ :=
  match s.last_update_ts with
  | none => 0
  | some tp => max 0 (timestamp_s - tp)

/-- Repeated `update` calls over a list of `(velocity, timestamp)` samples. -/
def runUpdates (s : StateDetector) (inputs : List (ℚ × ℚ)) : StateDetector :=
  inputs.foldl (fun acc i => update acc i.1 i.2) s

/-- The list of states returned by successive `update` calls. -/
def runStates (s : StateDetector) : List (ℚ × ℚ) → List DrillState
  | [] => []
  | i :: rest =>
    let s2 := update s i.1 i.2
    s2.current_state :: runStates s2 rest

/-- `StateDetector.get_efficiency_percent`. -/
def get_efficiency_percent (s : StateDetector) : ℚ :=
  let total := s.total_time_drilling_s + s.total_time_stopped_s
  if total ≤ 0 then 0 else s.total_time_drilling_s / total * 100


/-! ## Helper lemmas -/

/-- Or-ing disjoint bit ranges is addition: `b < 2 ^ k` makes
`x * 2 ^ k ||| b = x * 2 ^ k + b`. -/
lemma mul_pow_lor_eq_add : ∀ (k x b : Nat), b < 2 ^ k → (x * 2 ^ k) ||| b = x * 2 ^ k + b := by
  intro k
  induction k with
  | zero =>
    intro x b hb
    have : b = 0 := by omega
    subst this
    simp
  | succ k ih =>
    intro x b hb
    have hq : b / 2 < 2 ^ k := by
      have : (2 : Nat) ^ (k + 1) = 2 * 2 ^ k := by ring
      omega
    have ediv : (x * 2 ^ (k + 1) ||| b) / 2 = x * 2 ^ k + b / 2 := by
      rw [Nat.or_div_two]
      have : x * 2 ^ (k + 1) / 2 = x * 2 ^ k := by
        have : x * 2 ^ (k + 1) = (x * 2 ^ k) * 2 := by ring
        omega
      rw [this]
      exact ih x (b / 2) hq
    have hx2 : x * 2 ^ (k + 1) % 2 = 0 := by
      have : x * 2 ^ (k + 1) = (x * 2 ^ k) * 2 := by ring
      omega
    have emod : (x * 2 ^ (k + 1) ||| b) % 2 = b % 2 := by
      rcases Nat.mod_two_eq_zero_or_one b with hb2 | hb2 <;>
        rcases Nat.mod_two_eq_zero_or_one (x * 2 ^ (k + 1) ||| b) with ho | ho <;>
        rw [hb2, ho] <;> first
          | rfl
          | (exfalso
             have := @Nat.or_mod_two_eq_one (x * 2 ^ (k + 1)) b
             omega)
    have := Nat.div_add_mod (x * 2 ^ (k + 1) ||| b) 2
    have hg : x * 2 ^ (k + 1) = 2 * (x * 2 ^ k) := by ring
    omega

/-- `(b >>> 4) &&& 0x0F` is the Python high nibble `b / 16` of a byte. -/
lemma high_nibble_eq (b : Nat) (hb : b < 256) : (b >>> 4) &&& 0x0F = b / 16 := by
  rw [Nat.shiftRight_eq_div_pow]
  have h := Nat.and_pow_two_sub_one_eq_mod (b / 2 ^ 4) 4
  norm_num at h ⊢
  omega

/-- `b &&& 0x0F` is the Python low nibble `b % 16`. -/
lemma low_nibble_eq (b : Nat) : b &&& 0x0F = b % 16 := by
  have h := Nat.and_pow_two_sub_one_eq_mod b 4
  norm_num at h
  exact h

/-- `(b1 << 8) | b2` is the big-endian 16-bit value of the bytes. -/
lemma shiftLeft_lor_eq (b1 b2 : Nat) (h : b2 < 256) : (b1 <<< 8) ||| b2 = b1 * 256 + b2 := by
  have := mul_pow_lor_eq_add 8 b1 b2 (by norm_num [h])
  rw [Nat.shiftLeft_eq]
  norm_num at this
  norm_num [this]

/-- C1: `to_bytes` matches the §6 wire-format table for every command, and
`get_expected_response_length` matches the table for the read and laser
commands, but returns `0` — not the table's `13` — for all six single and
continuous measure commands. -/
theorem c1_command_table_eval :
    (to_bytes .LASER_ON = [0xAA, 0x00, 0x01, 0xBE, 0x00, 0x01, 0x00, 0x01, 0xC1]
      ∧ to_bytes .LASER_OFF = [0xAA, 0x00, 0x01, 0xBE, 0x00, 0x01, 0x00, 0x00, 0xC0]
      ∧ to_bytes .SINGLE_AUTO_MEASURE = [0xAA, 0x00, 0x00, 0x20, 0x00, 0x01, 0x00, 0x00, 0x21]
      ∧ to_bytes .SINGLE_LOW_SPEED_MEASURE = [0xAA, 0x00, 0x00, 0x20, 0x00, 0x01, 0x00, 0x01, 0x22]
      ∧ to_bytes .SINGLE_HIGH_SPEED_MEASURE = [0xAA, 0x00, 0x00, 0x20, 0x00, 0x01, 0x00, 0x02, 0x23]
      ∧ to_bytes .CONTINUOUS_AUTO_MEASURE = [0xAA, 0x00, 0x00, 0x20, 0x00, 0x01, 0x00, 0x04, 0x25]
      ∧ to_bytes .CONTINUOUS_LOW_SPEED_MEASURE = [0xAA, 0x00, 0x00, 0x20, 0x00, 0x01, 0x00, 0x05, 0x26]
      ∧ to_bytes .CONTINUOUS_HIGH_SPEED_MEASURE = [0xAA, 0x00, 0x00, 0x20, 0x00, 0x01, 0x00, 0x06, 0x27]
      ∧ to_bytes .EXIT_CONTINUOUS_MODE = [0x58]
      ∧ to_bytes .READ_STATUS = [0xAA, 0x80, 0x00, 0x00, 0x80]
      ∧ to_bytes .READ_HARDWARE_VERSION = [0xAA, 0x80, 0x00, 0x0A, 0x8A]
      ∧ to_bytes .READ_SOFTWARE_VERSION = [0xAA, 0x80, 0x00, 0x0C, 0x8C]
      ∧ to_bytes .READ_SERIAL_NUMBER = [0xAA, 0x80, 0x00, 0x0E, 0x8E]
      ∧ to_bytes .READ_INPUT_VOLTAGE = [0xAA, 0x80, 0x00, 0x06, 0x86]
      ∧ to_bytes .READ_LAST_MEASUREMENT = [0xAA, 0x80, 0x00, 0x22, 0xA2])
    ∧ (get_expected_response_length .READ_STATUS = 9
      ∧ get_expected_response_length .READ_HARDWARE_VERSION = 9
      ∧ get_expected_response_length .READ_SOFTWARE_VERSION = 9
      ∧ get_expected_response_length .READ_SERIAL_NUMBER = 11
      ∧ get_expected_response_length .READ_INPUT_VOLTAGE = 9
      ∧ get_expected_response_length .READ_LAST_MEASUREMENT = 13
      ∧ get_expected_response_length .LASER_ON = 9
      ∧ get_expected_response_length .LASER_OFF = 9
      ∧ get_expected_response_length .EXIT_CONTINUOUS_MODE = 0)
    ∧ (get_expected_response_length .SINGLE_AUTO_MEASURE = 0
      ∧ get_expected_response_length .SINGLE_LOW_SPEED_MEASURE = 0
      ∧ get_expected_response_length .SINGLE_HIGH_SPEED_MEASURE = 0
      ∧ get_expected_response_length .CONTINUOUS_AUTO_MEASURE = 0
      ∧ get_expected_response_length .CONTINUOUS_LOW_SPEED_MEASURE = 0
      ∧ get_expected_response_length .CONTINUOUS_HIGH_SPEED_MEASURE = 0) := by
  decide

/-- C2: for every 13-byte frame, `parse_measurement_response` reads
`distance_mm` as the big-endian u32 at bytes `[6:10]` and the raw quality as
the big-endian u16 at `[10:12]`; a raw quality above 100 is normalised by
`round(raw / 65535 * 100)` clamped to `[0, 100]`, otherwise reported as is.
In particular distance bytes `00 00 03 E8` with quality bytes `00 32` give
`distance_mm = 1000`, `signal_quality = 50`, and quality bytes `FF FF` give
`signal_quality = 100`. -/
theorem c2_measurement_decode :
    (∀ b0 b1 b2 b3 b4 b5 b6 b7 b8 b9 b10 b11 b12 : Nat,
      parse_measurement_response [b0, b1, b2, b3, b4, b5, b6, b7, b8, b9, b10, b11, b12] =
        .measurement
          (b6 * 16777216 + b7 * 65536 + b8 * 256 + b9)
          (if b10 * 256 + b11 > 100 then
            max 0 (min 100 (pythonRound (((b10 * 256 + b11 : Nat) : ℚ) / 65535 * 100)))
          else b10 * 256 + b11))
    ∧ parse_measurement_response
        [0xAA, 0x00, 0x00, 0x22, 0x00, 0x03, 0x00, 0x00, 0x03, 0xE8, 0x00, 0x32, 0x14] =
        .measurement 1000 50
    ∧ parse_measurement_response
        [0xAA, 0x00, 0x00, 0x22, 0x00, 0x03, 0x00, 0x00, 0x03, 0xE8, 0xFF, 0xFF, 0x14] =
        .measurement 1000 100 := by
  refine ⟨fun b0 b1 b2 b3 b4 b5 b6 b7 b8 b9 b10 b11 b12 => ?_, ?_, ?_⟩
  · simp only [parse_measurement_response, LEN_MEASUREMENT_RESPONSE, beVal, normalizeQuality,
      List.length_cons, List.length_nil, List.drop, List.take, List.foldl]
    norm_num
    ring_nf
  · simp only [parse_measurement_response, LEN_MEASUREMENT_RESPONSE, beVal, normalizeQuality,
      List.length_cons, List.length_nil, List.drop, List.take, List.foldl]
    norm_num
  · simp only [parse_measurement_response, LEN_MEASUREMENT_RESPONSE, beVal, normalizeQuality,
      pythonRound, List.length_cons, List.length_nil, List.drop, List.take, List.foldl]
    norm_num

/-- C5 counterexample: the 9-byte voltage frame with bytes `[6,7] = 0x12,0x34`
(valid BCD, 1234 mV) decodes to 1.234 V, not the 12.34 V stated by the
claim. -/
theorem c5_voltage_counterexample :
    parse_voltage_response [0xAA, 0x80, 0x00, 0x06, 0x00, 0x00, 0x12, 0x34, 0x46] =
      .voltage 1234 1.234
    ∧ (1.234 : ℚ) ≠ 12.34 := by
  constructor
  · have h : parse_voltage_response [0xAA, 0x80, 0x00, 0x06, 0x00, 0x00, 0x12, 0x34, 0x46] =
        .voltage 1234 (((1234 : Nat) : ℚ) / 1000) := rfl
    rw [h]
    norm_num
  · norm_num

/-- C5 (amended): for a 9-byte voltage frame, if all four nibbles of bytes
`[6]`,`[7]` are ≤ 9 they form a packed-BCD 4-digit millivolt value, otherwise
the two bytes are read as a big-endian integer millivolt value; the reported
voltage is `millivolts / 1000`.  Bytes `0x12,0x34` yield 1234 mV = 1.234 V
(not 12.34 V), and bytes `0xFA,0x00` (invalid BCD) take the big-endian
fallback, 64000 mV = 64 V. -/
theorem c5_voltage_decode :
    (∀ b0 b1 b2 b3 b4 b5 b6 b7 b8 : Nat, b6 < 256 → b7 < 256 →
      ((b6 / 16 ≤ 9 ∧ b6 % 16 ≤ 9 ∧ b7 / 16 ≤ 9 ∧ b7 % 16 ≤ 9 →
        parse_voltage_response [b0, b1, b2, b3, b4, b5, b6, b7, b8] =
          .voltage (b6 / 16 * 1000 + b6 % 16 * 100 + b7 / 16 * 10 + b7 % 16)
            (((b6 / 16 * 1000 + b6 % 16 * 100 + b7 / 16 * 10 + b7 % 16 : Nat) : ℚ) / 1000))
      ∧ (¬ (b6 / 16 ≤ 9 ∧ b6 % 16 ≤ 9 ∧ b7 / 16 ≤ 9 ∧ b7 % 16 ≤ 9) →
        parse_voltage_response [b0, b1, b2, b3, b4, b5, b6, b7, b8] =
          .voltage (b6 * 256 + b7) (((b6 * 256 + b7 : Nat) : ℚ) / 1000))))
    ∧ parse_voltage_response [0xAA, 0x80, 0x00, 0x06, 0x00, 0x00, 0x12, 0x34, 0x46] =
        .voltage 1234 1.234
    ∧ parse_voltage_response [0xAA, 0x80, 0x00, 0x06, 0x00, 0x00, 0xFA, 0x00, 0x46] =
        .voltage 64000 64 := by
  refine ⟨fun b0 b1 b2 b3 b4 b5 b6 b7 b8 h6 h7 => ?_, ?_, ?_⟩
  · have e1 : (b6 >>> 4) &&& 0x0F = b6 / 16 := high_nibble_eq b6 h6
    have e2 : b6 &&& 0x0F = b6 % 16 := low_nibble_eq b6
    have e3 : (b7 >>> 4) &&& 0x0F = b7 / 16 := high_nibble_eq b7 h7
    have e4 : b7 &&& 0x0F = b7 % 16 := low_nibble_eq b7
    have e5 : (b6 <<< 8) ||| b7 = b6 * 256 + b7 := shiftLeft_lor_eq b6 b7 h7
    constructor
    · intro hbcd
      simp only [parse_voltage_response, LEN_VOLTAGE_RESPONSE, List.length_cons,
        List.length_nil, List.getD, List.get?_cons_succ, List.get?_cons_zero,
        Option.getD_some]
      norm_num
      rw [e1, e2, e3, e4, if_pos hbcd]
      norm_num
      rw [if_pos hbcd]
    · intro hbcd
      simp only [parse_voltage_response, LEN_VOLTAGE_RESPONSE, List.length_cons,
        List.length_nil, List.getD, List.get?_cons_succ, List.get?_cons_zero,
        Option.getD_some]
      norm_num
      rw [e1, e2, e3, e4, if_neg hbcd, e5]
      push_cast
      norm_num
      rw [if_neg hbcd]
  · have h : parse_voltage_response [0xAA, 0x80, 0x00, 0x06, 0x00, 0x00, 0x12, 0x34, 0x46] =
        .voltage 1234 (((1234 : Nat) : ℚ) / 1000) := rfl
    rw [h]
    norm_num
  · have h : parse_voltage_response [0xAA, 0x80, 0x00, 0x06, 0x00, 0x00, 0xFA, 0x00, 0x46] =
        .voltage 64000 (((64000 : Nat) : ℚ) / 1000) := rfl
    rw [h]
    norm_num

/-- C5 witness: the amended theorem applied at the two concrete frames of the
spec, discharging the byte-range and BCD-validity hypotheses. -/
theorem c5_voltage_decode_witness :
    parse_voltage_response [0xAA, 0x80, 0x00, 0x06, 0x00, 0x00, 0x12, 0x34, 0x46] =
      .voltage (0x12 / 16 * 1000 + 0x12 % 16 * 100 + 0x34 / 16 * 10 + 0x34 % 16)
        (((0x12 / 16 * 1000 + 0x12 % 16 * 100 + 0x34 / 16 * 10 + 0x34 % 16 : Nat) : ℚ) / 1000)
    ∧ parse_voltage_response [0xAA, 0x80, 0x00, 0x06, 0x00, 0x00, 0xFA, 0x00, 0x46] =
      .voltage (0xFA * 256 + 0x00) (((0xFA * 256 + 0x00 : Nat) : ℚ) / 1000) :=
  ⟨(c5_voltage_decode.1 0xAA 0x80 0x00 0x06 0x00 0x00 0x12 0x34 0x46
      (by norm_num) (by norm_num)).1 (by norm_num),
    (c5_voltage_decode.1 0xAA 0x80 0x00 0x06 0x00 0x00 0xFA 0x00 0x46
      (by norm_num) (by norm_num)).2 (by norm_num)⟩

/-- C9: `get_efficiency_percent` is `drilling / (drilling + stopped) * 100`
when the total is positive and `0` when the total is zero; 30 s drilling and
10 s stopped give exactly 75. -/
theorem c9_efficiency_percent :
    (∀ s : StateDetector,
      (0 < s.total_time_drilling_s + s.total_time_stopped_s →
        get_efficiency_percent s =
          s.total_time_drilling_s / (s.total_time_drilling_s + s.total_time_stopped_s) * 100)
      ∧ (s.total_time_drilling_s + s.total_time_stopped_s = 0 →
        get_efficiency_percent s = 0))
    ∧ get_efficiency_percent
        { total_time_drilling_s := 30, total_time_stopped_s := 10 } = 75 := by
  constructor
  · intro s
    constructor
    · intro h
      rw [get_efficiency_percent, if_neg (by linarith)]
    · intro h
      rw [get_efficiency_percent, if_pos (by linarith)]
  · rw [get_efficiency_percent]
    norm_num

/-- C9 witness: the characterisation applied at concrete accumulator values
(30 s drilling / 10 s stopped, and the all-zero fresh detector). -/
theorem c9_efficiency_percent_witness :
    get_efficiency_percent { total_time_drilling_s := 30, total_time_stopped_s := 10 } =
      (30 : ℚ) / (30 + 10) * 100
    ∧ get_efficiency_percent initDetector = 0 :=
  ⟨(c9_efficiency_percent.1 { total_time_drilling_s := 30, total_time_stopped_s := 10 }).1
      (by norm_num),
    (c9_efficiency_percent.1 initDetector).2 (by norm_num [initDetector])⟩

/-- C10: every 13-byte frame with prefix `AA 80 00 0E` is dispatched by the
context-free decoder to the serial parser, which rejects it because it only
accepts frames of length `LEN_SERIAL_RESPONSE = 11`; so no 13-byte
serial-number frame decodes successfully through the auto-detect path. -/
theorem c10_serial_length_mismatch :
    ∀ x4 x5 x6 x7 x8 x9 x10 x11 x12 : Nat,
      parse_any_response [0xAA, 0x80, 0x00, 0x0E, x4, x5, x6, x7, x8, x9, x10, x11, x12]
        ExpectedType.unknown = .error "Invalid serial response length" := by
  intro x4 x5 x6 x7 x8 x9 x10 x11 x12
  rfl

/-- C7 counterexample: with no command context, a 9-byte frame bearing the
voltage prefix `AA 80 00 06` is decoded as a Status response (the dispatch is
length-first and every 9-byte frame resolves to `status`), and a 13-byte
frame with an unrecognized prefix is decoded as a Measurement, not as
Unknown. -/
theorem c7_prefix_dispatch_counterexample :
    parse_any_response [0xAA, 0x80, 0x00, 0x06, 0x00, 0x00, 0x12, 0x34, 0x46]
        ExpectedType.unknown = .status 0x80 "Unknown status: 0x80"
    ∧ parse_any_response [0xAA, 0x80, 0x00, 0x06, 0x00, 0x00, 0x12, 0x34, 0x46]
        ExpectedType.unknown ≠ .voltage 1234 1.234
    ∧ parse_any_response [0xAA, 0x01, 0x02, 0x03, 0x00, 0x00, 0x00, 0x00, 0x00, 0x64, 0x00,
        0x32, 0x00] ExpectedType.unknown = .measurement 100 50
    ∧ parse_any_response [0xAA, 0x01, 0x02, 0x03, 0x00, 0x00, 0x00, 0x00, 0x00, 0x64, 0x00,
        0x32, 0x00] ExpectedType.unknown ≠
        .unknown [0xAA, 0x01, 0x02, 0x03, 0x00, 0x00, 0x00, 0x00, 0x00, 0x64, 0x00, 0x32, 0x00] := by
  have h1 : parse_any_response [0xAA, 0x80, 0x00, 0x06, 0x00, 0x00, 0x12, 0x34, 0x46]
      ExpectedType.unknown = .status 0x80 "Unknown status: 0x80" := rfl
  have h2 : parse_any_response [0xAA, 0x01, 0x02, 0x03, 0x00, 0x00, 0x00, 0x00, 0x00, 0x64,
      0x00, 0x32, 0x00] ExpectedType.unknown = .measurement 100 50 := rfl
  refine ⟨h1, ?_, h2, ?_⟩
  · rw [h1]
    simp
  · rw [h2]
    simp

/-- C7 (amended): with no command context the decoder dispatches on length
first.  Every 9-byte frame is decoded as Status regardless of its prefix
(the version, voltage and laser-control length buckets also equal 9 and are
shadowed); a 13- or 11-byte frame is decoded as Measurement when it begins
`AA 00 00 22`, as Serial when it begins `AA 80 00 0E`, and as Measurement by
default otherwise; a nonempty frame of any other length is decoded as
Unknown carrying the raw bytes; empty input yields an Error. -/
theorem c7_auto_detect_dispatch :
    (∀ b0 b1 b2 b3 b4 b5 b6 b7 b8 : Nat,
      parse_any_response [b0, b1, b2, b3, b4, b5, b6, b7, b8] ExpectedType.unknown =
        parse_status_response [b0, b1, b2, b3, b4, b5, b6, b7, b8])
    ∧ (∀ b0 b1 b2 b3 b4 b5 b6 b7 b8 b9 b10 b11 b12 : Nat,
      parse_any_response [b0, b1, b2, b3, b4, b5, b6, b7, b8, b9, b10, b11, b12]
          ExpectedType.unknown =
        if [b0, b1, b2, b3] = [0xAA, 0x00, 0x00, 0x22] then
          parse_measurement_response [b0, b1, b2, b3, b4, b5, b6, b7, b8, b9, b10, b11, b12]
        else if [b0, b1, b2, b3] = [0xAA, 0x80, 0x00, 0x0E] then
          parse_serial_response [b0, b1, b2, b3, b4, b5, b6, b7, b8, b9, b10, b11, b12]
        else
          parse_measurement_response [b0, b1, b2, b3, b4, b5, b6, b7, b8, b9, b10, b11, b12])
    ∧ (∀ b0 b1 b2 b3 b4 b5 b6 b7 b8 b9 b10 : Nat,
      parse_any_response [b0, b1, b2, b3, b4, b5, b6, b7, b8, b9, b10]
          ExpectedType.unknown =
        if [b0, b1, b2, b3] = [0xAA, 0x00, 0x00, 0x22] then
          parse_measurement_response [b0, b1, b2, b3, b4, b5, b6, b7, b8, b9, b10]
        else if [b0, b1, b2, b3] = [0xAA, 0x80, 0x00, 0x0E] then
          parse_serial_response [b0, b1, b2, b3, b4, b5, b6, b7, b8, b9, b10]
        else
          parse_measurement_response [b0, b1, b2, b3, b4, b5, b6, b7, b8, b9, b10])
    ∧ (∀ data : List Nat, data ≠ [] → data.length ≠ 9 → data.length ≠ 11 →
        data.length ≠ 13 →
        parse_any_response data ExpectedType.unknown = .unknown data)
    ∧ parse_any_response [] ExpectedType.unknown = .error "Empty response" := by
  refine ⟨fun b0 b1 b2 b3 b4 b5 b6 b7 b8 => rfl,
    fun b0 b1 b2 b3 b4 b5 b6 b7 b8 b9 b10 b11 b12 => ?_,
    fun b0 b1 b2 b3 b4 b5 b6 b7 b8 b9 b10 => ?_,
    fun data hne h9 h11 h13 => ?_, rfl⟩
  · by_cases hc1 : [b0, b1, b2, b3] = [0xAA, 0x00, 0x00, 0x22]
    · simp [parse_any_response, detectType, LEN_STATUS_RESPONSE, LEN_VERSION_RESPONSE,
        LEN_VOLTAGE_RESPONSE, LEN_MEASUREMENT_RESPONSE, LEN_SERIAL_RESPONSE, hc1]
    · by_cases hc2 : [b0, b1, b2, b3] = [0xAA, 0x80, 0x00, 0x0E]
      · simp [parse_any_response, detectType, LEN_STATUS_RESPONSE, LEN_VERSION_RESPONSE,
          LEN_VOLTAGE_RESPONSE, LEN_MEASUREMENT_RESPONSE, LEN_SERIAL_RESPONSE, hc1, hc2]
      · simp [parse_any_response, detectType, LEN_STATUS_RESPONSE, LEN_VERSION_RESPONSE,
          LEN_VOLTAGE_RESPONSE, LEN_MEASUREMENT_RESPONSE, LEN_SERIAL_RESPONSE, hc1, hc2]
  · by_cases hc1 : [b0, b1, b2, b3] = [0xAA, 0x00, 0x00, 0x22]
    · simp [parse_any_response, detectType, LEN_STATUS_RESPONSE, LEN_VERSION_RESPONSE,
        LEN_VOLTAGE_RESPONSE, LEN_MEASUREMENT_RESPONSE, LEN_SERIAL_RESPONSE, hc1]
    · by_cases hc2 : [b0, b1, b2, b3] = [0xAA, 0x80, 0x00, 0x0E]
      · simp [parse_any_response, detectType, LEN_STATUS_RESPONSE, LEN_VERSION_RESPONSE,
          LEN_VOLTAGE_RESPONSE, LEN_MEASUREMENT_RESPONSE, LEN_SERIAL_RESPONSE, hc1, hc2]
      · simp [parse_any_response, detectType, LEN_STATUS_RESPONSE, LEN_VERSION_RESPONSE,
          LEN_VOLTAGE_RESPONSE, LEN_MEASUREMENT_RESPONSE, LEN_SERIAL_RESPONSE, hc1, hc2]
  · simp [parse_any_response, detectType, LEN_STATUS_RESPONSE, LEN_VERSION_RESPONSE,
      LEN_VOLTAGE_RESPONSE, LEN_MEASUREMENT_RESPONSE, LEN_SERIAL_RESPONSE,
      LEN_LASER_CONTROL_RESPONSE, hne, h9, h11, h13]

/-- C7 witness: the dispatch characterisation applied at a concrete 9-byte
status frame and at a concrete 3-byte fragment, discharging the length
hypotheses. -/
theorem c7_auto_detect_dispatch_witness :
    parse_any_response [0xAA, 0x00, 0x00, 0x00, 0x00, 0x00, 0x00, 0x00, 0xAA]
        ExpectedType.unknown =
      parse_status_response [0xAA, 0x00, 0x00, 0x00, 0x00, 0x00, 0x00, 0x00, 0xAA]
    ∧ parse_any_response [0x01, 0x02, 0x03] ExpectedType.unknown = .unknown [0x01, 0x02, 0x03] :=
  ⟨c7_auto_detect_dispatch.1 0xAA 0x00 0x00 0x00 0x00 0x00 0x00 0x00 0xAA,
    c7_auto_detect_dispatch.2.2.2.1 [0x01, 0x02, 0x03] (by simp) (by simp) (by simp) (by simp)⟩

set_option maxHeartbeats 1000000 in
/-- C3: a single valid 13-byte measurement frame (prefix `AA 00 00 22`) fed
to the Bluetooth frame synchronizer in thirteen 1-byte deliveries emits
exactly one measurement, identical to the one emitted when the same 13 bytes
arrive in one delivery; the emitted value is a Measurement; and while the
frame is incomplete no emission happens and the buffer holds exactly the
bytes delivered so far (no byte is lost). -/
theorem c3_fragmentation_idempotent :
    ∀ b4 b5 b6 b7 b8 b9 b10 b11 b12 : Nat,
      feedData [] [0xAA, 0x00, 0x00, 0x22, b4, b5, b6, b7, b8, b9, b10, b11, b12] =
        ([parse_measurement_response
            [0xAA, 0x00, 0x00, 0x22, b4, b5, b6, b7, b8, b9, b10, b11, b12]], [])
      ∧ feedChunks ([], [])
          ([0xAA, 0x00, 0x00, 0x22, b4, b5, b6, b7, b8, b9, b10, b11, b12].map fun b => [b]) =
        ([], [parse_measurement_response
            [0xAA, 0x00, 0x00, 0x22, b4, b5, b6, b7, b8, b9, b10, b11, b12]])
      ∧ (∃ d q, parse_measurement_response
          [0xAA, 0x00, 0x00, 0x22, b4, b5, b6, b7, b8, b9, b10, b11, b12] = .measurement d q)
      ∧ ∀ k, k < 13 →
          feedChunks ([], [])
            (([0xAA, 0x00, 0x00, 0x22, b4, b5, b6, b7, b8, b9, b10, b11, b12].take k).map
              fun b => [b]) =
          ([0xAA, 0x00, 0x00, 0x22, b4, b5, b6, b7, b8, b9, b10, b11, b12].take k, []) := by
  intro b4 b5 b6 b7 b8 b9 b10 b11 b12
  refine ⟨?_, ?_, ⟨_, _, rfl⟩, ?_⟩
  · simp [feedData, syncLoop, syncLoopF, HEADER, FRAME_LEN, MEAS_HEADER, Parsed.isError,
      parse_measurement_response, LEN_MEASUREMENT_RESPONSE]
  · simp [feedChunks, feedData, syncLoop, syncLoopF, HEADER, FRAME_LEN, MEAS_HEADER,
      Parsed.isError, parse_measurement_response, LEN_MEASUREMENT_RESPONSE]
  · intro k hk
    interval_cases k <;>
      simp [feedChunks, feedData, syncLoop, syncLoopF, HEADER, FRAME_LEN, MEAS_HEADER,
        Parsed.isError]

/-- C3 witness: the fragmentation theorem applied at a concrete frame and a
concrete prefix length, discharging the `k < 13` hypothesis. -/
theorem c3_fragmentation_idempotent_witness :
    feedChunks ([], [])
      (([0xAA, 0x00, 0x00, 0x22, 0x00, 0x03, 0x00, 0x00, 0x03, 0xE8, 0x00, 0x32, 0x14].take 5).map
        fun b => [b]) =
    ([0xAA, 0x00, 0x00, 0x22, 0x00, 0x03, 0x00, 0x00, 0x03, 0xE8, 0x00, 0x32, 0x14].take 5, []) :=
  (c3_fragmentation_idempotent 0x00 0x03 0x00 0x00 0x03 0xE8 0x00 0x32 0x14).2.2.2 5
    (by norm_num)

/-- The two-most-recent-samples contract of `add_measurement` for the default
window size 5 while the window is not yet full: with previous last sample `p`
and new sample `m`, the call returns `None` when `Δt ≤ 0` and
`(Δdistance_mm / 1000) / Δt` otherwise. -/
lemma add_measurement_two_most_recent (vc : VelocityCalculator)
    (ws : List MeasurementData) (p m : MeasurementData) (hw : vc.window_size = 5)
    (hrec : vc.recent_measurements = ws ++ [p]) (hlen : ws.length ≤ 3) :
    (m.timestamp - p.timestamp ≤ 0 → (add_measurement vc m).2 = none)
    ∧ (0 < m.timestamp - p.timestamp →
      (add_measurement vc m).2 =
        some (((m.distance_mm - p.distance_mm) / 1000) / (m.timestamp - p.timestamp))) := by
  have hpush : pushMax vc.window_size vc.recent_measurements m = ws ++ [p, m] := by
    simp only [pushMax, hrec, hw, List.append_assoc, List.length_append, List.length_cons,
      List.length_nil]
    rw [Nat.sub_eq_zero_of_le (by omega), List.drop_zero]
    simp
  have hcalc : calcInstantaneousVelocity
      { vc with recent_measurements := ws ++ [p, m] } =
      (if m.timestamp - p.timestamp ≤ 0 then none
       else some (((m.distance_mm - p.distance_mm) / 1000) / (m.timestamp - p.timestamp))) := by
    simp [calcInstantaneousVelocity, List.reverse_append]
  have hlen2 : ¬ ((ws ++ [p, m]).length < 2) := by
    simp only [List.length_append, List.length_cons, List.length_nil]
    omega
  constructor
  · intro hdt
    simp only [add_measurement, hpush, if_neg hlen2, hcalc, if_pos hdt]
  · intro hdt
    simp only [add_measurement, hpush, if_neg hlen2, hcalc, if_neg (not_le.mpr hdt)]

/-- C6: the velocity estimator returns `None` with fewer than two samples
held and `None` on `Δt ≤ 0`; otherwise `Δdistance / Δtime` in m/s with the
millimetre input converted to metres, so metre-denominated samples
`(t1, d1)`, `(t2, d2)` give `(d2 - d1) / (t2 - t1)`; samples `(t=0, 0 mm)`
and `(t=1, 10 mm)` (i.e. 0.000 m and 0.010 m) give exactly 0.010 m/s, and a
duplicate timestamp gives `None`. -/
theorem c6_velocity_estimator :
    (∀ vc : VelocityCalculator, ∀ m, vc.recent_measurements = [] →
      (add_measurement vc m).2 = none)
    ∧ (∀ vc : VelocityCalculator, ∀ ws p m, vc.window_size = 5 →
        vc.recent_measurements = ws ++ [p] → ws.length ≤ 3 →
        ((m.timestamp - p.timestamp ≤ 0 → (add_measurement vc m).2 = none)
         ∧ (0 < m.timestamp - p.timestamp →
            (add_measurement vc m).2 =
              some (((m.distance_mm - p.distance_mm) / 1000) / (m.timestamp - p.timestamp)))))
    ∧ (∀ t1 t2 d1 d2 : ℚ, t1 < t2 →
        (add_measurement (add_measurement {} ⟨t1, 1000 * d1⟩).1 ⟨t2, 1000 * d2⟩).2 =
          some ((d2 - d1) / (t2 - t1)))
    ∧ (add_measurement {} ⟨0, 0⟩).2 = none
    ∧ (add_measurement (add_measurement {} ⟨0, 0⟩).1 ⟨1, 10⟩).2 = some 0.010
    ∧ (add_measurement (add_measurement {} ⟨0, 0⟩).1 ⟨0, 5⟩).2 = none := by
  refine ⟨?_, fun vc ws p m hw hrec hlen =>
      add_measurement_two_most_recent vc ws p m hw hrec hlen, ?_, ?_, ?_, ?_⟩
  · intro vc m h
    simp only [add_measurement, pushMax, h, List.nil_append, List.length_cons,
      List.length_nil, List.length_drop]
    split
    · rfl
    · next hc => exact absurd (by omega) hc
  · intro t1 t2 d1 d2 ht
    have h := (add_measurement_two_most_recent (add_measurement {} ⟨t1, 1000 * d1⟩).1 []
      ⟨t1, 1000 * d1⟩ ⟨t2, 1000 * d2⟩ rfl rfl (by simp)).2 (by simpa using sub_pos.mpr ht)
    rw [h]
    have e : ((1000 : ℚ) * d2 - 1000 * d1) / 1000 = d2 - d1 := by ring
    simp only [e]
  · rfl
  · have h := (add_measurement_two_most_recent (add_measurement {} ⟨0, 0⟩).1 []
      ⟨0, 0⟩ ⟨1, 10⟩ rfl rfl (by simp)).2 (by norm_num)
    rw [h]
    norm_num
  · have h := (add_measurement_two_most_recent (add_measurement {} ⟨0, 0⟩).1 []
      ⟨0, 0⟩ ⟨0, 5⟩ rfl rfl (by simp)).1 (by norm_num)
    rw [h]

/-- C6 witness: the estimator contract applied at the spec's concrete
samples, discharging the window and `Δt` hypotheses. -/
theorem c6_velocity_estimator_witness :
    (add_measurement (add_measurement {} ⟨0, 0⟩).1 ⟨1, 10⟩).2 = some ((0.010 - 0) / (1 - 0))
    ∧ (add_measurement {} ⟨0, 0⟩).2 = none :=
  ⟨by
    have h := c6_velocity_estimator.2.2.1 0 1 0 0.010 (by norm_num)
    norm_num at h ⊢
    exact h,
   c6_velocity_estimator.1 {} ⟨0, 0⟩ rfl⟩

/-- `accumStep` leaves every non-accumulator, non-`last_update_ts` field
unchanged. -/
lemma accumStep_fields (s : StateDetector) (t : ℚ) :
    (accumStep s t).config = s.config
    ∧ (accumStep s t).current_state = s.current_state
    ∧ (accumStep s t).last_below_start_ts = s.last_below_start_ts
    ∧ (accumStep s t).last_above_pos_start_ts = s.last_above_pos_start_ts
    ∧ (accumStep s t).last_above_neg_start_ts = s.last_above_neg_start_ts := by
  unfold accumStep
  cases hu : s.last_update_ts <;> split_ifs <;> exact ⟨rfl, rfl, rfl, rfl, rfl⟩

/-- `accumStep` adds `dtElapsed` to the drilling accumulator exactly when the
pre-transition state is `Khoan`. -/
lemma accumStep_drilling (s : StateDetector) (t : ℚ) :
    (accumStep s t).total_time_drilling_s =
      s.total_time_drilling_s
        + (if s.current_state = DrillState.Khoan then dtElapsed s t else 0) := by
  unfold accumStep dtElapsed
  cases hu : s.last_update_ts <;> split_ifs <;> simp

/-- `accumStep` adds `dtElapsed` to the stopped accumulator exactly when the
pre-transition state is not `Khoan` (`Dung` and `RutCan` share it). -/
lemma accumStep_stopped (s : StateDetector) (t : ℚ) :
    (accumStep s t).total_time_stopped_s =
      s.total_time_stopped_s
        + (if s.current_state = DrillState.Khoan then 0 else dtElapsed s t) := by
  unfold accumStep dtElapsed
  cases hu : s.last_update_ts <;> split_ifs <;> simp

/-- `streakStep` only touches the streak trackers. -/
lemma streakStep_fields (s : StateDetector) (v t : ℚ) :
    (streakStep s v t).config = s.config
    ∧ (streakStep s v t).current_state = s.current_state
    ∧ (streakStep s v t).total_time_drilling_s = s.total_time_drilling_s
    ∧ (streakStep s v t).total_time_stopped_s = s.total_time_stopped_s
    ∧ (streakStep s v t).last_update_ts = s.last_update_ts := by
  unfold streakStep
  dsimp only
  split_ifs <;> exact ⟨rfl, rfl, rfl, rfl, rfl⟩

/-- `transitionStep` (and `_change_state`) never touches the accumulators. -/
lemma transitionStep_accums (s : StateDetector) (t : ℚ) :
    (transitionStep s t).total_time_drilling_s = s.total_time_drilling_s
    ∧ (transitionStep s t).total_time_stopped_s = s.total_time_stopped_s := by
  unfold transitionStep
  repeat' split
  all_goals simp [changeState]

/-- The accumulator equations of a full `update` call. -/
lemma update_accums (s : StateDetector) (v t : ℚ) :
    (update s v t).total_time_drilling_s =
      s.total_time_drilling_s
        + (if s.current_state = DrillState.Khoan then dtElapsed s t else 0)
    ∧ (update s v t).total_time_stopped_s =
      s.total_time_stopped_s
        + (if s.current_state = DrillState.Khoan then 0 else dtElapsed s t) := by
  unfold update
  constructor
  · rw [(transitionStep_accums _ _).1, (streakStep_fields _ _ _).2.2.1, accumStep_drilling]
  · rw [(transitionStep_accums _ _).2, (streakStep_fields _ _ _).2.2.2.1, accumStep_stopped]

/-- `dtElapsed` is never negative (negative raw `dt` is clamped to zero). -/
lemma dtElapsed_nonneg (s : StateDetector) (t : ℚ) : 0 ≤ dtElapsed s t := by
  unfold dtElapsed
  cases hu : s.last_update_ts
  · exact le_refl 0
  · exact le_max_left 0 _

/-- C8: on every `update` call the elapsed time since the previous call,
clamped to zero if negative, is added to the drilling accumulator when the
pre-transition state is `Khoan` (Drilling) and to the stopped accumulator
otherwise (`Dung` and `RutCan` share it), before any transition is
evaluated; hence both accumulators are monotonically non-decreasing over any
sequence of updates. -/
theorem c8_duration_accumulators :
    (∀ (s : StateDetector) (v t : ℚ),
      (update s v t).total_time_drilling_s =
        s.total_time_drilling_s
          + (if s.current_state = DrillState.Khoan then dtElapsed s t else 0)
      ∧ (update s v t).total_time_stopped_s =
        s.total_time_stopped_s
          + (if s.current_state = DrillState.Khoan then 0 else dtElapsed s t))
    ∧ (∀ (s : StateDetector) (inputs : List (ℚ × ℚ)),
      s.total_time_drilling_s ≤ (runUpdates s inputs).total_time_drilling_s
      ∧ s.total_time_stopped_s ≤ (runUpdates s inputs).total_time_stopped_s) := by
  refine ⟨update_accums, ?_⟩
  intro s inputs
  induction inputs generalizing s with
  | nil => exact ⟨le_refl _, le_refl _⟩
  | cons i rest ih =>
    have hstep := update_accums s i.1 i.2
    have hd : s.total_time_drilling_s ≤ (update s i.1 i.2).total_time_drilling_s := by
      rw [hstep.1]
      have := dtElapsed_nonneg s i.2
      split_ifs <;> linarith
    have hs : s.total_time_stopped_s ≤ (update s i.1 i.2).total_time_stopped_s := by
      rw [hstep.2]
      have := dtElapsed_nonneg s i.2
      split_ifs <;> linarith
    have hrest := ih (update s i.1 i.2)
    exact ⟨le_trans hd hrest.1, le_trans hs hrest.2⟩

/-- Projection forms of `accumStep_fields` for rewriting. -/
lemma accumStep_config (s : StateDetector) (t : ℚ) :
    (accumStep s t).config = s.config := (accumStep_fields s t).1

lemma accumStep_current (s : StateDetector) (t : ℚ) :
    (accumStep s t).current_state = s.current_state := (accumStep_fields s t).2.1

lemma accumStep_below (s : StateDetector) (t : ℚ) :
    (accumStep s t).last_below_start_ts = s.last_below_start_ts := (accumStep_fields s t).2.2.1

lemma accumStep_pos (s : StateDetector) (t : ℚ) :
    (accumStep s t).last_above_pos_start_ts = s.last_above_pos_start_ts :=
  (accumStep_fields s t).2.2.2.1

lemma accumStep_neg (s : StateDetector) (t : ℚ) :
    (accumStep s t).last_above_neg_start_ts = s.last_above_neg_start_ts :=
  (accumStep_fields s t).2.2.2.2

/-- The source default `velocity_threshold = 0.005`. -/
lemma default_vel_threshold : ({} : StateDetectorConfig).velocity_threshold = 0.005 := rfl

/-- The source default `min_duration_below_s = 3.0`. -/
lemma default_min_below : ({} : StateDetectorConfig).min_duration_below_s = 3 := by
  have h : ({} : StateDetectorConfig).min_duration_below_s = (3.0 : ℚ) := rfl
  rw [h]
  norm_num

/-- The source default `min_duration_above_s = 1.0`. -/
lemma default_min_above : ({} : StateDetectorConfig).min_duration_above_s = 1 := by
  have h : ({} : StateDetectorConfig).min_duration_above_s = (1.0 : ℚ) := rfl
  rw [h]
  norm_num

lemma abs_pos_vel : |(0.02 : ℚ)| = 0.02 := abs_of_nonneg (by norm_num)

/-- One `update` call at velocity 0.02 from `Dung` with a positive streak
started at time 0: the state flips to `Khoan` exactly when `1 ≤ t`. -/
lemma step_stop_to_drill (s : StateDetector) (t : ℚ) (hcfg : s.config = {})
    (hcur : s.current_state = .Dung) (hpos : s.last_above_pos_start_ts = some 0)
    (hbel : s.last_below_start_ts = none) (hneg : s.last_above_neg_start_ts = none) :
    ((1 : ℚ) ≤ t →
      (update s 0.02 t).config = ({} : StateDetectorConfig)
      ∧ (update s 0.02 t).current_state = .Khoan
      ∧ (update s 0.02 t).last_below_start_ts = none
      ∧ (update s 0.02 t).last_above_neg_start_ts = none)
    ∧ (¬ (1 : ℚ) ≤ t →
      (update s 0.02 t).config = ({} : StateDetectorConfig)
      ∧ (update s 0.02 t).current_state = .Dung
      ∧ (update s 0.02 t).last_above_pos_start_ts = some 0
      ∧ (update s 0.02 t).last_below_start_ts = none
      ∧ (update s 0.02 t).last_above_neg_start_ts = none) := by
  have habs : ¬ (|(0.02 : ℚ)| < ({} : StateDetectorConfig).velocity_threshold) := by
    rw [abs_pos_vel, default_vel_threshold]
    norm_num
  have hge : (0.02 : ℚ) ≥ ({} : StateDetectorConfig).velocity_threshold := by
    rw [default_vel_threshold]
    norm_num
  constructor <;> intro ht <;>
    simp only [update, streakStep, accumStep_config, accumStep_current, accumStep_below,
      accumStep_pos, accumStep_neg, hcfg, hcur, hpos, hbel, hneg, if_neg habs, if_pos hge,
      Option.getD_some, transitionStep, changeState, default_min_above, sub_zero]
  · rw [if_pos ht]
    exact ⟨rfl, rfl, rfl, rfl⟩
  · rw [if_neg ht]
    exact ⟨rfl, rfl, rfl, rfl, rfl⟩

/-- One `update` at velocity 0.02 from `Khoan` with no below/negative streak:
the detector stays in `Khoan` with the same shape (the positive streak
cannot trigger a transition out of `Khoan`). -/
lemma step_drilling_absorb (s : StateDetector) (t : ℚ) (hcfg : s.config = {})
    (hcur : s.current_state = .Khoan) (hbel : s.last_below_start_ts = none)
    (hneg : s.last_above_neg_start_ts = none) :
    (update s 0.02 t).config = ({} : StateDetectorConfig)
    ∧ (update s 0.02 t).current_state = .Khoan
    ∧ (update s 0.02 t).last_below_start_ts = none
    ∧ (update s 0.02 t).last_above_neg_start_ts = none := by
  have habs : ¬ (|(0.02 : ℚ)| < ({} : StateDetectorConfig).velocity_threshold) := by
    rw [abs_pos_vel, default_vel_threshold]
    norm_num
  have hge : (0.02 : ℚ) ≥ ({} : StateDetectorConfig).velocity_threshold := by
    rw [default_vel_threshold]
    norm_num
  simp only [update, streakStep, accumStep_config, accumStep_current, accumStep_below,
    accumStep_pos, accumStep_neg, hcfg, hcur, hbel, hneg, if_neg habs, if_pos hge,
    transitionStep, changeState]
  simp

/-- One `update` at velocity 0 from `Dung` with no positive/negative streak:
the detector stays in `Dung` (a below streak never leaves `Dung`). -/
lemma step_stopped_absorb (s : StateDetector) (t : ℚ) (hcfg : s.config = {})
    (hcur : s.current_state = .Dung) (hpos : s.last_above_pos_start_ts = none)
    (hneg : s.last_above_neg_start_ts = none) :
    (update s 0 t).config = ({} : StateDetectorConfig)
    ∧ (update s 0 t).current_state = .Dung
    ∧ (update s 0 t).last_above_pos_start_ts = none
    ∧ (update s 0 t).last_above_neg_start_ts = none := by
  have habs : |(0 : ℚ)| < ({} : StateDetectorConfig).velocity_threshold := by
    rw [abs_zero, default_vel_threshold]
    norm_num
  simp only [update, streakStep, accumStep_config, accumStep_current, accumStep_below,
    accumStep_pos, accumStep_neg, hcfg, hcur, hpos, hneg, if_pos habs,
    transitionStep, changeState]
  simp

/-- One `update` at velocity 0 from `Khoan` with a below streak started at
time 0: the state flips to `Dung` exactly when `3 ≤ t`. -/
lemma step_drill_to_stop (s : StateDetector) (t : ℚ) (hcfg : s.config = {})
    (hcur : s.current_state = .Khoan) (hbel : s.last_below_start_ts = some 0)
    (hpos : s.last_above_pos_start_ts = none) (hneg : s.last_above_neg_start_ts = none) :
    ((3 : ℚ) ≤ t →
      (update s 0 t).config = ({} : StateDetectorConfig)
      ∧ (update s 0 t).current_state = .Dung
      ∧ (update s 0 t).last_above_pos_start_ts = none
      ∧ (update s 0 t).last_above_neg_start_ts = none)
    ∧ (¬ (3 : ℚ) ≤ t →
      (update s 0 t).config = ({} : StateDetectorConfig)
      ∧ (update s 0 t).current_state = .Khoan
      ∧ (update s 0 t).last_below_start_ts = some 0
      ∧ (update s 0 t).last_above_pos_start_ts = none
      ∧ (update s 0 t).last_above_neg_start_ts = none) := by
  have habs : |(0 : ℚ)| < ({} : StateDetectorConfig).velocity_threshold := by
    rw [abs_zero, default_vel_threshold]
    norm_num
  constructor <;> intro ht <;>
    simp only [update, streakStep, accumStep_config, accumStep_current, accumStep_below,
      accumStep_pos, accumStep_neg, hcfg, hcur, hbel, hpos, hneg, if_pos habs,
      Option.getD_some, transitionStep, changeState, default_min_below, sub_zero]
  · rw [if_pos ht]
    exact ⟨rfl, rfl, rfl, rfl⟩
  · rw [if_neg ht]
    exact ⟨rfl, rfl, rfl, rfl, rfl⟩

/-- The first `update` of the Drilling scenario: velocity 0.02 at time 0 from
the stopped state with no active streaks starts the positive streak at 0 and
stays in `Dung`. -/
lemma step_first_pos (s : StateDetector) (hcfg : s.config = {})
    (hcur : s.current_state = .Dung) (hpos : s.last_above_pos_start_ts = none)
    (hbel : s.last_below_start_ts = none) (hneg : s.last_above_neg_start_ts = none) :
    (update s 0.02 0).config = ({} : StateDetectorConfig)
    ∧ (update s 0.02 0).current_state = .Dung
    ∧ (update s 0.02 0).last_above_pos_start_ts = some 0
    ∧ (update s 0.02 0).last_below_start_ts = none
    ∧ (update s 0.02 0).last_above_neg_start_ts = none := by
  have habs : ¬ (|(0.02 : ℚ)| < ({} : StateDetectorConfig).velocity_threshold) := by
    rw [abs_pos_vel, default_vel_threshold]
    norm_num
  have hge : (0.02 : ℚ) ≥ ({} : StateDetectorConfig).velocity_threshold := by
    rw [default_vel_threshold]
    norm_num
  have hlt : ¬ ((0 : ℚ) - 0 ≥ ({} : StateDetectorConfig).min_duration_above_s) := by
    rw [default_min_above]
    norm_num
  simp only [update, streakStep, accumStep_config, accumStep_current, accumStep_below,
    accumStep_pos, accumStep_neg, hcfg, hcur, hpos, hbel, hneg, if_neg habs, if_pos hge,
    Option.getD_none, transitionStep, changeState, if_neg hlt]
  simp

/-- The first `update` of the Stopping scenario: velocity 0 at time 0 from
`Khoan` with no below streak starts the below streak at 0 and stays in
`Khoan` (the earlier positive/negative streaks are reset). -/
lemma step_first_zero (s : StateDetector) (hcfg : s.config = {})
    (hcur : s.current_state = .Khoan) (hbel : s.last_below_start_ts = none) :
    (update s 0 0).config = ({} : StateDetectorConfig)
    ∧ (update s 0 0).current_state = .Khoan
    ∧ (update s 0 0).last_below_start_ts = some 0
    ∧ (update s 0 0).last_above_pos_start_ts = none
    ∧ (update s 0 0).last_above_neg_start_ts = none := by
  have habs : |(0 : ℚ)| < ({} : StateDetectorConfig).velocity_threshold := by
    rw [abs_zero, default_vel_threshold]
    norm_num
  have hlt : ¬ ((0 : ℚ) - 0 ≥ ({} : StateDetectorConfig).min_duration_below_s) := by
    rw [default_min_below]
    norm_num
  simp only [update, streakStep, accumStep_config, accumStep_current, accumStep_below,
    accumStep_pos, accumStep_neg, hcfg, hcur, hbel, if_pos habs, Option.getD_none,
    transitionStep, changeState, if_neg hlt]
  simp

/-- Sustained 0.02 m/s keeps the detector in `Khoan` forever. -/
lemma runStates_drill_absorb : ∀ (ts : List ℚ) (s : StateDetector), s.config = {} →
    s.current_state = .Khoan → s.last_below_start_ts = none →
    s.last_above_neg_start_ts = none →
    runStates s (ts.map fun t => ((0.02 : ℚ), t)) = ts.map fun _ => DrillState.Khoan := by
  intro ts
  induction ts with
  | nil => intro s _ _ _ _; rfl
  | cons t rest ih =>
    intro s hcfg hcur hbel hneg
    have h := step_drilling_absorb s t hcfg hcur hbel hneg
    simp only [List.map_cons, runStates, h.2.1]
    exact congrArg _ (ih _ h.1 h.2.1 h.2.2.1 h.2.2.2)

/-- Sustained 0 m/s keeps the detector in `Dung` forever. -/
lemma runStates_stop_absorb : ∀ (ts : List ℚ) (s : StateDetector), s.config = {} →
    s.current_state = .Dung → s.last_above_pos_start_ts = none →
    s.last_above_neg_start_ts = none →
    runStates s (ts.map fun t => ((0 : ℚ), t)) = ts.map fun _ => DrillState.Dung := by
  intro ts
  induction ts with
  | nil => intro s _ _ _ _; rfl
  | cons t rest ih =>
    intro s hcfg hcur hpos hneg
    have h := step_stopped_absorb s t hcfg hcur hpos hneg
    simp only [List.map_cons, runStates, h.2.1]
    exact congrArg _ (ih _ h.1 h.2.1 h.2.2.1 h.2.2.2)

/-- Main induction of the Drilling scenario: from `Dung` with the positive
streak started at 0, fed 0.02 m/s at non-decreasing timestamps, the reported
state is `Khoan` exactly for timestamps `≥ 1`. -/
lemma part1_aux : ∀ (ts : List ℚ) (s : StateDetector), s.config = {} →
    s.current_state = .Dung → s.last_above_pos_start_ts = some 0 →
    s.last_below_start_ts = none → s.last_above_neg_start_ts = none →
    ts.Pairwise (· ≤ ·) →
    runStates s (ts.map fun t => ((0.02 : ℚ), t)) =
      ts.map fun t => if (1 : ℚ) ≤ t then DrillState.Khoan else DrillState.Dung := by
  intro ts
  induction ts with
  | nil => intro s _ _ _ _ _ _; rfl
  | cons t rest ih =>
    intro s hcfg hcur hpos hbel hneg hpair
    rw [List.pairwise_cons] at hpair
    have h := step_stop_to_drill s t hcfg hcur hpos hbel hneg
    by_cases ht : (1 : ℚ) ≤ t
    · have hk := h.1 ht
      simp only [List.map_cons, runStates, hk.2.1, if_pos ht]
      refine congrArg _ ?_
      rw [runStates_drill_absorb rest _ hk.1 hk.2.1 hk.2.2.1 hk.2.2.2]
      refine List.map_congr_left fun x hx => ?_
      rw [if_pos (le_trans ht (hpair.1 x hx))]
    · have hk := h.2 ht
      simp only [List.map_cons, runStates, hk.2.1, if_neg ht]
      exact congrArg _ (ih _ hk.1 hk.2.1 hk.2.2.1 hk.2.2.2.1 hk.2.2.2.2 hpair.2)

/-- Main induction of the Stopping scenario: from `Khoan` with the below
streak started at 0, fed 0 m/s at non-decreasing timestamps, the reported
state is `Dung` exactly for timestamps `≥ 3`. -/
lemma part2_aux : ∀ (ts : List ℚ) (s : StateDetector), s.config = {} →
    s.current_state = .Khoan → s.last_below_start_ts = some 0 →
    s.last_above_pos_start_ts = none → s.last_above_neg_start_ts = none →
    ts.Pairwise (· ≤ ·) →
    runStates s (ts.map fun t => ((0 : ℚ), t)) =
      ts.map fun t => if (3 : ℚ) ≤ t then DrillState.Dung else DrillState.Khoan := by
  intro ts
  induction ts with
  | nil => intro s _ _ _ _ _ _; rfl
  | cons t rest ih =>
    intro s hcfg hcur hbel hpos hneg hpair
    rw [List.pairwise_cons] at hpair
    have h := step_drill_to_stop s t hcfg hcur hbel hpos hneg
    by_cases ht : (3 : ℚ) ≤ t
    · have hk := h.1 ht
      simp only [List.map_cons, runStates, hk.2.1, if_pos ht]
      refine congrArg _ ?_
      rw [runStates_stop_absorb rest _ hk.1 hk.2.1 hk.2.2.1 hk.2.2.2]
      refine List.map_congr_left fun x hx => ?_
      rw [if_pos (le_trans ht (hpair.1 x hx))]
    · have hk := h.2 ht
      simp only [List.map_cons, runStates, hk.2.1, if_neg ht]
      exact congrArg _ (ih _ hk.1 hk.2.1 hk.2.2.1 hk.2.2.2.1 hk.2.2.2.2 hpair.2)

/-- C4: with the default configuration (threshold 0.005 m/s, 1.0 s above, 3.0
s below): a fresh detector fed a constant 0.02 m/s at non-decreasing
timestamps starting at 0 reports `Khoan` (Drilling) exactly at updates with
timestamp `≥ 1.0` and `Dung` (Stopped) before; and a detector in `Khoan`
with no active below streak fed constant 0 m/s from time 0 reports `Dung`
exactly at updates with timestamp `≥ 3.0` — in particular it is still
`Khoan` after only 2.9 s of below-threshold samples. -/
theorem c4_state_detector_hysteresis :
    (∀ rest : List ℚ, (0 :: rest).Pairwise (· ≤ ·) →
      runStates initDetector ((0 :: rest).map fun t => ((0.02 : ℚ), t)) =
        (0 :: rest).map fun t => if (1 : ℚ) ≤ t then DrillState.Khoan else DrillState.Dung)
    ∧ (∀ (s : StateDetector) (rest : List ℚ), s.config = {} →
        s.current_state = .Khoan → s.last_below_start_ts = none →
        (0 :: rest).Pairwise (· ≤ ·) →
        runStates s ((0 :: rest).map fun t => ((0 : ℚ), t)) =
          (0 :: rest).map fun t => if (3 : ℚ) ≤ t then DrillState.Dung else DrillState.Khoan) := by
  constructor
  · intro rest hpair
    rw [List.pairwise_cons] at hpair
    have h := step_first_pos initDetector rfl rfl rfl rfl rfl
    simp only [List.map_cons, runStates, h.2.1]
    rw [if_neg (by norm_num : ¬ (1 : ℚ) ≤ 0)]
    exact congrArg _ (part1_aux rest _ h.1 h.2.1 h.2.2.1 h.2.2.2.1 h.2.2.2.2 hpair.2)
  · intro s rest hcfg hcur hbel hpair
    rw [List.pairwise_cons] at hpair
    have h := step_first_zero s hcfg hcur hbel
    simp only [List.map_cons, runStates, h.2.1]
    rw [if_neg (by norm_num : ¬ (3 : ℚ) ≤ 0)]
    exact congrArg _ (part2_aux rest _ h.1 h.2.1 h.2.2.1 h.2.2.2.1 h.2.2.2.2 hpair.2)

/-- C4 witness: the hysteresis theorem applied to concrete runs — 0.02 m/s at
times 0, 0.5, 1, 2 flips to Drilling exactly at t = 1; 0 m/s from Drilling
at times 0, 1, 2.9, 3 stays Drilling through 2.9 s and stops exactly at
t = 3. -/
theorem c4_state_detector_hysteresis_witness :
    runStates initDetector ([0, 0.5, 1, 2].map fun t => ((0.02 : ℚ), t)) =
      [DrillState.Dung, DrillState.Dung, DrillState.Khoan, DrillState.Khoan]
    ∧ runStates { current_state := DrillState.Khoan }
        ([0, 1, 2.9, 3].map fun t => ((0 : ℚ), t)) =
      [DrillState.Khoan, DrillState.Khoan, DrillState.Khoan, DrillState.Dung] := by
  constructor
  · have h := c4_state_detector_hysteresis.1 [0.5, 1, 2]
      (by norm_num [List.pairwise_cons])
    rw [show ((0 : ℚ) :: [0.5, 1, 2]) = [0, 0.5, 1, 2] from rfl] at h
    rw [h]
    norm_num
  · have h := c4_state_detector_hysteresis.2 { current_state := DrillState.Khoan }
      [1, 2.9, 3] rfl rfl rfl (by norm_num [List.pairwise_cons])
    rw [show ((0 : ℚ) :: [1, 2.9, 3]) = [0, 1, 2.9, 3] from rfl] at h
    rw [h]
    norm_num

end Meskernel
